import Mathlib

/-!
Shallow embedding of the document-processing pipeline (Flask + Celery app):
job rows (`ProcessingJob`), result rows (`JobResult`), the idempotent result
writer `_save_result`, the Celery task `extract_data_task`, and the REST
actions `create_job`, `cancel_job`, `retry_job`.  Definitions follow the
Python source in `app/` line by line; theorems check the claims of the
specification against them.
-/

namespace DocProcessor

/-- Job lifecycle states stored in `processing_jobs.status`. -/
inductive JobStatus
  | queued
  | processing
  | completed
  | failed
  | cancelled
deriving DecidableEq, Repr

/-- One row of `processing_jobs` (app/models/job.py).  Timestamps are modelled
as flags (set / not set); ids of related entities are natural numbers. -/
structure Job where
  documentId : Nat
  jobType : String
  status : JobStatus
  celeryTaskId : Option String
  startedAt : Bool
  completedAt : Bool
  retryCount : Nat
  maxRetries : Nat
  errorMessage : Option String
  options : List (String × String)
deriving DecidableEq, Repr

/-- One row of `job_results` (app/models/result.py).  `resultData` is kept
opaque as a string. -/
structure JobResult where
  jobId : Nat
  resultType : String
  resultData : String
deriving DecidableEq, Repr

/-- Python exceptions that the modelled code can raise.  `excGeneric` is the
builtin `Exception`, `valueErr` the builtin `ValueError`.  The constructors
`extractionErr` and `unsupportedTypeErr` stand for the typed
`ExtractionError` / `UnsupportedTypeError` classes named by the spec; the
source never defines or raises them. -/
inductive PyExc
  | excGeneric (msg : String)
  | valueErr (msg : String)
  | extractionErr (msg : String)
  | unsupportedTypeErr (msg : String)
deriving DecidableEq, Repr

/-- The `str(e)` message of a raised exception. -/
def PyExc.msg : PyExc → String
  | .excGeneric m => m
  | .valueErr m => m
  | .extractionErr m => m
  | .unsupportedTypeErr m => m

/-- Model of `_save_result` (app/tasks/processing_tasks.py): query for an existing row
with the same `(job_id, result_type)`; if found, return without writing;
otherwise insert a new `JobResult` row and commit. -/
def _save_result (jobId : Nat) (resultType : String) (resultData : String)
    (dbResults : List JobResult) : List JobResult :=
  if dbResults.any (fun r => r.jobId == jobId && r.resultType == resultType) then
    dbResults
  else
    dbResults ++ [{ jobId := jobId, resultType := resultType, resultData := resultData }]

/-- Number of result rows stored for a given `(job_id, result_type)` pair. -/
def resultCount (dbResults : List JobResult) (jobId : Nat) (resultType : String) : Nat :=
  (dbResults.filter (fun r => r.jobId == jobId && r.resultType == resultType)).length

/-- Celery request context seen by a bound task: `self.request.retries` (number
of earlier retries of this task) and the `max_retries` of the decorator (3 in
`@shared_task(bind=True, max_retries=3, ...)`), plus `self.request.id`. -/
structure TaskCtx where
  retries : Nat
  maxRetries : Nat
  taskId : String
deriving DecidableEq, Repr

/-- Environment of one delivery: outcome of the MinIO download, the MIME type
of the document, and what each extractor returns if invoked on the downloaded
bytes (the extractors are pure `bytes → results` functions; their outcome on
this file is a parameter of the model). -/
structure TaskEnv where
  download : Except PyExc Unit
  mime : String
  pdfOutcome : Except PyExc (List (String × String))
  csvOutcome : Except PyExc (List (String × String))
  excelOutcome : Except PyExc (List (String × String))
deriving Repr

/-- MIME routing in `extract_data_task` (app/tasks/processing_tasks.py,
lines 59-66): PDF, CSV/plain-text, Excel, otherwise
`raise ValueError("Unsupported file type: ...")`. -/
def routeExtract (env : TaskEnv) : Except PyExc (List (String × String)) :=
  if env.mime == "application/pdf" then
    env.pdfOutcome
  else if env.mime == "text/csv" || env.mime == "text/plain" then
    env.csvOutcome
  else if env.mime == "application/vnd.openxmlformats-officedocument.spreadsheetml.sheet"
      || env.mime == "application/vnd.ms-excel" then
    env.excelOutcome
  else
    .error (.valueErr ("Unsupported file type: " ++ env.mime))

/-- Outcome of one delivery of `extract_data_task`: normal return,
`raise self.retry(countdown=...)`, or a re-raised exception after the last
Celery retry (permanent failure). -/
inductive TaskOutcome
  | completedOk (resultTypes : List String)
  | retryScheduled (countdown : Nat)
  | permanentFail (e : PyExc)
deriving DecidableEq, Repr

/-- Database state visible to one delivery: the job row under the delivered
job id (none models a deleted job) and the `job_results` table. -/
structure TaskState where
  job : Option Job
  results : List JobResult
deriving DecidableEq, Repr

/-- Model of `extract_data_task` (app/tasks/processing_tasks.py).  The try-block:
fetch the job (`ValueError` if missing), commit `status=processing` with
`started_at` and the Celery task id, download the file, route on MIME type,
save every produced result via `_save_result`, commit `status=completed`.
The except-block: refetch the job and, when it still exists, commit
`status=failed`, `error_message = str(e)`, `retry_count += 1`; then
`raise self.retry(countdown=2 ** self.request.retries * 60)` while
`self.request.retries < self.max_retries`, else re-raise. -/
def extract_data_task (ctx : TaskCtx) (env : TaskEnv) (jobId : Nat)
    (st : TaskState) : TaskState × TaskOutcome :=
  match st.job with
  | none =>
      if ctx.retries < ctx.maxRetries then
        (st, .retryScheduled (2 ^ ctx.retries * 60))
      else
        (st, .permanentFail (.valueErr ("Job " ++ toString jobId ++ " not found")))
  | some job0 =>
      let job1 : Job :=
        { job0 with status := .processing, startedAt := true, celeryTaskId := some ctx.taskId }
      let extracted : Except PyExc (List (String × String)) :=
        match env.download with
        | .error e => .error e
        | .ok _ => routeExtract env
      match extracted with
      | .ok rs =>
          let results1 := rs.foldl (fun acc p => _save_result jobId p.1 p.2 acc) st.results
          let job2 : Job := { job1 with status := .completed, completedAt := true }
          (⟨some job2, results1⟩, .completedOk (rs.map Prod.fst))
      | .error e =>
          let job2 : Job :=
            { job1 with status := .failed, errorMessage := some e.msg,
                        retryCount := job1.retryCount + 1 }
          if ctx.retries < ctx.maxRetries then
            (⟨some job2, st.results⟩, .retryScheduled (2 ^ ctx.retries * 60))
          else
            (⟨some job2, st.results⟩, .permanentFail e)

/-- A fresh job row as `create_job` / `retry_job` insert it: `status=queued`
with the model defaults `retry_count=0`, `max_retries=3` (app/models/job.py). -/
def newProcessingJob (docId : Nat) (jt : String) (opts : List (String × String)) : Job :=
  { documentId := docId, jobType := jt, status := .queued, celeryTaskId := none,
    startedAt := false, completedAt := false, retryCount := 0, maxRetries := 3,
    errorMessage := none, options := opts }

/-- Delivery environment in which every attempt fails: the CSV extractor
raises on the file (its outcome is what `extract_from_csv` produces on an
undecodable input). -/
def failEnv : TaskEnv :=
  { download := .ok (), mime := "text/csv",
    pdfOutcome := .ok [], excelOutcome := .ok [],
    csvOutcome := .error (.excGeneric "CSV extraction failed: boom") }

/-- State of the automatic Celery retry loop on one job: the database state,
the `retries` counter of the next scheduled delivery (none once no delivery
is pending), and the backoff countdowns handed to `self.retry` so far. -/
structure AutoState where
  st : TaskState
  next : Option Nat
  countdowns : List Nat
deriving DecidableEq, Repr

/-- One automatic step: run the pending delivery (if any) with the always-
failing environment; a `retryScheduled` outcome schedules the next delivery
with `retries` incremented, any other outcome ends the loop. -/
def autoStep (a : AutoState) : AutoState :=
  match a.next with
  | none => a
  | some i =>
      let r := extract_data_task ⟨i, 3, "tid"⟩ failEnv 1 a.st
      match r.2 with
      | .retryScheduled c =>
          { st := r.1, next := some (i + 1), countdowns := a.countdowns ++ [c] }
      | _ => { st := r.1, next := none, countdowns := a.countdowns }

/-- The automatic trace of a fresh `extract_data` job whose every delivery
fails: `autoTrace n` is the state after `n` automatic steps. -/
def autoTrace : Nat → AutoState
  | 0 => { st := ⟨some (newProcessingJob 1 "extract_data" []), []⟩,
           next := some 0, countdowns := [] }
  | n + 1 => autoStep (autoTrace n)

/-- The `retry_count` of the (unique) job row in an auto-trace state. -/
def traceRetryCount (a : AutoState) : Nat :=
  (a.st.job.map Job.retryCount).getD 0

/-- The `status` of the (unique) job row in an auto-trace state. -/
def traceStatus (a : AutoState) : Option JobStatus :=
  a.st.job.map Job.status

/-- Delivery environment with a MIME type no branch of the routing handles. -/
def unsupportedEnv : TaskEnv :=
  { download := .ok (), mime := "image/png",
    pdfOutcome := .ok [], csvOutcome := .ok [], excelOutcome := .ok [] }

/-- The parsed dataframe `pd.read_csv` returns, reduced to the fields the CSV
extractor inspects: column names, the numeric columns among them, and the
row count. -/
structure CsvDf where
  columns : List String
  numericColumns : List String
  rowCount : Nat
deriving DecidableEq, Repr

/-- Model of `extract_from_csv` (app/services/extractors/csv_extractor.py).  The
pandas parse is a parameter of the model: `.error cause` is any decode/parse
failure inside the try-block, `.ok df` a successful `pd.read_csv`.  On
failure the except-block raises the builtin
`Exception("CSV extraction failed: " + str(e))`; on success the result map
always holds `extracted_tables` and holds `document_metadata` exactly when
numeric columns exist.  Result payloads are kept opaque. -/
def extract_from_csv (parse : Except String CsvDf) :
    Except PyExc (List (String × String)) :=
  match parse with
  | .error cause => .error (.excGeneric ("CSV extraction failed: " ++ cause))
  | .ok df =>
      if df.numericColumns.isEmpty then
        .ok [("extracted_tables", "tables")]
      else
        .ok [("extracted_tables", "tables"), ("document_metadata", "metadata")]

/-- The parsed document `pdfplumber.open` yields, reduced to the fields the
PDF extractor inspects: the per-page extracted texts and the number of
non-empty tables found. -/
structure PdfDoc where
  pageTexts : List String
  tableCount : Nat
deriving DecidableEq, Repr

/-- Model of `extract_from_pdf` (app/services/extractors/pdf_extractor.py).  The
pdfplumber parse is a parameter of the model.  On any failure the except-block
raises the builtin `Exception("PDF extraction failed: " + str(e))`; on
success `extracted_text` is present when some page had text,
`extracted_tables` when a non-empty table was found, and
`document_metadata` always. -/
def extract_from_pdf (parse : Except String PdfDoc) :
    Except PyExc (List (String × String)) :=
  match parse with
  | .error cause => .error (.excGeneric ("PDF extraction failed: " ++ cause))
  | .ok doc =>
      let textPart :=
        if (doc.pageTexts.filter (fun t => t ≠ "")).isEmpty then []
        else [("extracted_text", "text")]
      let tablePart :=
        if doc.tableCount = 0 then [] else [("extracted_tables", "tables")]
      .ok (textPart ++ tablePart ++ [("document_metadata", "metadata")])

/-- True when the outcome is a raised typed `ExtractionError` (the class the
spec requires; the source never defines it). -/
def raisesTypedExtractionError : Except PyExc (List (String × String)) → Bool
  | .error (.extractionErr _) => true
  | _ => false

/-- True when the outcome is a raised typed `UnsupportedTypeError` (the class
the spec requires; the source never defines it). -/
def raisesTypedUnsupportedTypeError : Except PyExc (List (String × String)) → Bool
  | .error (.unsupportedTypeErr _) => true
  | _ => false

/-- Model of `Config.VALID_JOB_TYPES` (app/config.py). -/
def VALID_JOB_TYPES : List String :=
  ["extract_data", "convert_to_pdf", "convert_to_excel", "convert_to_csv", "ocr_document"]

/-- Model of `validate_job_type` (app/services/validator.py): raise `ValidationError`
when the requested type is not in the configured list. -/
def validate_job_type (jobType : String) (validJobTypes : List String) :
    Except String Unit :=
  if validJobTypes.contains jobType then .ok ()
  else .error ("Invalid job type " ++ jobType)

/-- Model of `validate_job_options` (app/services/validator.py): `ocr_document` gets a
defaulted, checked `language`; `convert_to_excel` checks `sheet_name`
length; every other job type passes its options through unchanged. -/
def validate_job_options (jobType : String) (options : List (String × String)) :
    Except String (List (String × String)) :=
  if jobType == "ocr_document" then
    let options1 :=
      if (options.lookup "language").isNone then options ++ [("language", "eng")]
      else options
    match options1.lookup "language" with
    | some lang =>
        if ["eng", "fra", "spa", "deu"].contains lang then .ok options1
        else .error "Invalid OCR language"
    | none => .ok options1
  else if jobType == "convert_to_excel" then
    match options.lookup "sheet_name" with
    | some s =>
        if 31 < s.length then .error "Sheet name cannot exceed 31 characters"
        else .ok options
    | none => .ok options
  else .ok options

/-- Parsed JSON body of `POST /jobs`. -/
structure CreateJobRequest where
  documentId : Option Nat
  jobType : Option String
  options : List (String × String)
deriving Repr

/-- Outcome of `extract_data_task.delay(...)`: a Celery task id, or a raised
exception. -/
inductive EnqueueOutcome
  | ok (taskId : String)
  | fail (msg : String)
deriving DecidableEq, Repr

/-- Model of `create_job` (app/routes/jobs.py): validate the body, check the document
exists, validate job type and options, insert and commit the queued job
row, then try to enqueue the Celery task — recording the task id on
success, and on an enqueue exception only logging (the request still
returns 201 with the committed row).  Returns the jobs table and the HTTP
status code. -/
def create_job (documents : List Nat) (jobs : List Job)
    (req : Option CreateJobRequest) (enqueue : EnqueueOutcome) : List Job × Nat :=
  match req with
  | none => (jobs, 400)
  | some r =>
      match r.documentId with
      | none => (jobs, 400)
      | some docId =>
          match r.jobType with
          | none => (jobs, 400)
          | some jt =>
              if documents.contains docId = false then (jobs, 404)
              else
                match validate_job_type jt VALID_JOB_TYPES with
                | .error _ => (jobs, 400)
                | .ok _ =>
                    match validate_job_options jt r.options with
                    | .error _ => (jobs, 400)
                    | .ok vopts =>
                        let job := newProcessingJob docId jt vopts
                        let job1 :=
                          if jt == "extract_data" then
                            match enqueue with
                            | .ok tid => { job with celeryTaskId := some tid }
                            | .fail _ => job
                          else job
                        (jobs ++ [job1], 201)

/-- Model of `cancel_job` (app/routes/jobs.py): 404 when the job is missing, 400 with
no mutation when it is already completed or failed, otherwise commit
`status=cancelled`.  Returns the job row after the call, the HTTP status
code and the response message. -/
def cancel_job (job : Option Job) : Option Job × Nat × String :=
  match job with
  | none => (none, 404, "Job not found")
  | some j =>
      if j.status = .completed then (some j, 400, "Cannot cancel completed job")
      else if j.status = .failed then (some j, 400, "Cannot cancel failed job")
      else (some { j with status := .cancelled }, 200, "Job cancelled successfully")

/-- Model of `retry_job` (app/routes/jobs.py): 404 when the job is missing, 400 with no
mutation unless its status is `failed`, otherwise insert a fresh queued job
with the same document, type and options; the old row is not touched.
Returns (old row after the call, created row, HTTP status code). -/
def retry_job (oldJob : Option Job) : Option Job × Option Job × Nat :=
  match oldJob with
  | none => (none, none, 404)
  | some old =>
      if old.status ≠ .failed then (some old, none, 400)
      else (some old, some (newProcessingJob old.documentId old.jobType old.options), 201)

theorem resultCount_zero_iff (db : List JobResult) (j : Nat) (k : String) :
    resultCount db j k = 0 ↔
      db.any (fun r => r.jobId == j && r.resultType == k) = false := by
  simp [resultCount, List.length_eq_zero, List.filter_eq_nil_iff, List.any_eq_false]

/-- Claim C1: calling the result-save operation twice with identical
`(job_id, result_kind, data)` leaves exactly one result row for the pair:
starting from a store with no row for `(j, k)`, the first call persists the
row, and the second call is a no-op that changes nothing. -/
theorem c1_save_result_idempotent (db : List JobResult) (j : Nat) (k d : String)
    (h : resultCount db j k = 0) :
    _save_result j k d (_save_result j k d db) = _save_result j k d db ∧
    resultCount (_save_result j k d (_save_result j k d db)) j k = 1 := by
  have hany : db.any (fun r => r.jobId == j && r.resultType == k) = false :=
    (resultCount_zero_iff db j k).mp h
  have hfirst : _save_result j k d db =
      db ++ [({ jobId := j, resultType := k, resultData := d } : JobResult)] := by
    simp [_save_result, hany]
  have hany2 : (db ++ [({ jobId := j, resultType := k, resultData := d } : JobResult)]).any
      (fun r => r.jobId == j && r.resultType == k) = true := by
    simp [List.any_append]
  constructor
  · rw [hfirst]
    simp [_save_result, hany2]
  · rw [hfirst]
    simp only [_save_result, hany2, if_true]
    have hzero : (db.filter (fun r => r.jobId == j && r.resultType == k)).length = 0 := h
    simp [resultCount, List.filter_append, hzero]

/-- Claim C1 witness: a concrete run on the empty store. -/
theorem c1_save_result_idempotent_witness :
    _save_result 1 "extracted_text" "t" (_save_result 1 "extracted_text" "t" []) =
      _save_result 1 "extracted_text" "t" [] ∧
    resultCount (_save_result 1 "extracted_text" "t" (_save_result 1 "extracted_text" "t" [])) 1
      "extracted_text" = 1 :=
  c1_save_result_idempotent [] 1 "extracted_text" "t" (by decide)

theorem autoTrace_stable (k : Nat) : autoTrace (4 + k) = autoTrace 4 := by
  induction k with
  | zero => rfl
  | succ k ih =>
      have hstep : autoTrace (4 + (k + 1)) = autoStep (autoTrace (4 + k)) := rfl
      rw [hstep, ih]
      rfl

theorem autoTrace_ge_four (m : Nat) (hm : 4 ≤ m) : autoTrace m = autoTrace 4 := by
  obtain ⟨k, rfl⟩ : ∃ k, m = 4 + k := ⟨m - 4, by omega⟩
  exact autoTrace_stable k

/-- Claim C2 counterexample: on the fresh `extract_data` job (`max_retries = 3`)
whose every delivery fails, the fourth delivery is still scheduled
automatically (`next = some 3` after three steps), and after it runs the
retry_count of the job is 4, strictly above its max_retries — the claimed
invariant `retry_count ≤ max_retries` is violated by the code. -/
theorem c2_counterexample :
    (autoTrace 3).next = some 3 ∧
    (autoTrace 4).st.job.map Job.maxRetries = some 3 ∧
    traceRetryCount (autoTrace 4) = 4 ∧
    3 < traceRetryCount (autoTrace 4) := by
  decide

/-- Claim C2 as amended: `retry_count` is monotonically non-decreasing along
the automatic trace, but its bound is `max_retries + 1`, not `max_retries`:
every failing delivery increments it and also commits `status = failed`
even while automatic retries remain, and after the delivery whose Celery
`retries` counter equals `max_retries` fails, the job rests at
`status = failed` with `retry_count = max_retries + 1` and no further
automatic transition occurs. -/
theorem c2_amended (n m : Nat) (hm : 4 ≤ m) :
    traceRetryCount (autoTrace n) ≤ traceRetryCount (autoTrace (n + 1)) ∧
    traceRetryCount (autoTrace n) ≤ 3 + 1 ∧
    autoTrace m = autoTrace 4 ∧
    traceStatus (autoTrace 4) = some .failed ∧
    traceRetryCount (autoTrace 4) = 3 + 1 := by
  refine ⟨?_, ?_, autoTrace_ge_four m hm, by decide, by decide⟩
  · rcases Nat.lt_or_ge n 4 with h | h
    · interval_cases n <;> decide
    · rw [autoTrace_ge_four n h, autoTrace_ge_four (n + 1) (by omega)]
  · rcases Nat.lt_or_ge n 4 with h | h
    · interval_cases n <;> decide
    · rw [autoTrace_ge_four n h]
      decide

/-- Claim C2 amended witness: the amended statement at `n = 0`, `m = 5`. -/
theorem c2_amended_witness :
    traceRetryCount (autoTrace 0) ≤ traceRetryCount (autoTrace (0 + 1)) ∧
    traceRetryCount (autoTrace 0) ≤ 3 + 1 ∧
    autoTrace 5 = autoTrace 4 ∧
    traceStatus (autoTrace 4) = some .failed ∧
    traceRetryCount (autoTrace 4) = 3 + 1 :=
  c2_amended 0 5 (by decide)

/-- Claim C3: along the automatic retry trace of a job whose deliveries all
fail, the backoff countdowns handed to `self.retry` are exactly
`2 ^ retries * 60` for `retries = 0, 1, 2`, i.e. `[60, 120, 240]` seconds. -/
theorem c3_backoff_sequence :
    (autoTrace 4).countdowns = [2 ^ 0 * 60, 2 ^ 1 * 60, 2 ^ 2 * 60] ∧
    (autoTrace 4).countdowns = [60, 120, 240] := by
  decide

/-- Claim C4 counterexample: a delivery for a deleted job (job row `none`,
first attempt) does not terminate without retry — the raised
`ValueError("Job ... not found")` falls into the generic handler and a
backoff redelivery of 60 seconds is scheduled. -/
theorem c4_counterexample :
    extract_data_task ⟨0, 3, "tid"⟩ failEnv 7 ⟨none, []⟩ =
      (⟨none, []⟩, .retryScheduled 60) := by
  rfl

/-- Claim C4 as amended: a delivery whose job id has no job row mutates no
state (neither a job row nor the results table), but it is retried with the
usual exponential backoff while Celery retries remain, and only fails
permanently (re-raising the `ValueError`) once they are exhausted. -/
theorem c4_amended (ctx : TaskCtx) (env : TaskEnv) (jid : Nat) (rs : List JobResult) :
    (extract_data_task ctx env jid ⟨none, rs⟩).1 = ⟨none, rs⟩ ∧
    (ctx.retries < ctx.maxRetries →
      (extract_data_task ctx env jid ⟨none, rs⟩).2 =
        .retryScheduled (2 ^ ctx.retries * 60)) ∧
    (ctx.maxRetries ≤ ctx.retries →
      (extract_data_task ctx env jid ⟨none, rs⟩).2 =
        .permanentFail (.valueErr ("Job " ++ toString jid ++ " not found"))) := by
  unfold extract_data_task
  refine ⟨?_, ?_, ?_⟩
  · dsimp only
    split <;> rfl
  · intro h
    dsimp only
    rw [if_pos h]
  · intro h
    dsimp only
    rw [if_neg (by omega)]

/-- Claim C4 amended witness: the amended statement on a fourth-retry
delivery for a deleted job. -/
theorem c4_amended_witness :
    (extract_data_task ⟨3, 3, "tid"⟩ failEnv 7 ⟨none, []⟩).1 = ⟨none, []⟩ ∧
    (extract_data_task ⟨3, 3, "tid"⟩ failEnv 7 ⟨none, []⟩).2 =
      .permanentFail (.valueErr ("Job " ++ toString 7 ++ " not found")) :=
  ⟨(c4_amended ⟨3, 3, "tid"⟩ failEnv 7 []).1,
   (c4_amended ⟨3, 3, "tid"⟩ failEnv 7 []).2.2 (by decide)⟩

/-- Claim C5: cancelling a job whose status is completed or failed answers 400
(the state conflict) and leaves the row unmodified; cancelling a job whose
status is queued or processing commits `status = cancelled`, touching
nothing else, and a repeated cancel leaves that same row. -/
theorem c5_cancel_job (j : Job) :
    ((j.status = .completed ∨ j.status = .failed) →
      (cancel_job (some j)).1 = some j ∧ (cancel_job (some j)).2.1 = 400) ∧
    ((j.status = .queued ∨ j.status = .processing) →
      cancel_job (some j) =
        (some { j with status := .cancelled }, 200, "Job cancelled successfully") ∧
      cancel_job (some { j with status := .cancelled }) =
        (some { j with status := .cancelled }, 200, "Job cancelled successfully")) := by
  constructor
  · rintro (h | h) <;> simp [cancel_job, h]
  · rintro (h | h) <;>
      exact ⟨by simp [cancel_job, h], by simp [cancel_job]⟩

/-- Claim C5 witness: cancelling a fresh queued job, and the conflict answer
on the resulting cancelled-then-failed path is exercised via a failed job. -/
theorem c5_cancel_job_witness :
    cancel_job (some (newProcessingJob 1 "extract_data" [])) =
      (some { newProcessingJob 1 "extract_data" [] with status := .cancelled }, 200,
        "Job cancelled successfully") ∧
    cancel_job (some { newProcessingJob 1 "extract_data" [] with status := .cancelled }) =
      (some { newProcessingJob 1 "extract_data" [] with status := .cancelled }, 200,
        "Job cancelled successfully") :=
  (c5_cancel_job (newProcessingJob 1 "extract_data" [])).2 (Or.inl rfl)

/-- Claim C6: the retry action answers 400 and creates nothing for a job whose
status is not failed; for a failed job it creates a fresh queued row with
the same document, type and options while the old row is returned
unmodified (still failed). -/
theorem c6_retry_job (j : Job) :
    (j.status ≠ .failed → retry_job (some j) = (some j, none, 400)) ∧
    (j.status = .failed →
      retry_job (some j) =
        (some j, some (newProcessingJob j.documentId j.jobType j.options), 201) ∧
      (newProcessingJob j.documentId j.jobType j.options).status = .queued ∧
      (newProcessingJob j.documentId j.jobType j.options).documentId = j.documentId ∧
      (newProcessingJob j.documentId j.jobType j.options).jobType = j.jobType ∧
      (newProcessingJob j.documentId j.jobType j.options).options = j.options ∧
      (retry_job (some j)).1 = some j) := by
  constructor
  · intro h
    simp [retry_job, h]
  · intro h
    refine ⟨by simp [retry_job, h], rfl, rfl, rfl, rfl, by simp [retry_job, h]⟩

/-- Claim C6 witness: retrying a concrete failed job. -/
theorem c6_retry_job_witness :
    retry_job (some { newProcessingJob 2 "extract_data" [("a", "b")] with status := .failed }) =
      (some { newProcessingJob 2 "extract_data" [("a", "b")] with status := .failed },
        some (newProcessingJob 2 "extract_data" [("a", "b")]), 201) := by
  have h := (c6_retry_job
    { newProcessingJob 2 "extract_data" [("a", "b")] with status := .failed }).2 rfl
  exact h.1

/-- Claim C7: a delivery whose document carries an unsupported MIME type is
treated exactly like any other extraction failure: while Celery retries
remain, `retry_count` is incremented, the error is recorded, and a backoff
redelivery of `2 ^ retries * 60` seconds is scheduled — the job is not made
instantly terminal. -/
theorem c7_unsupported_mime_consumes_retry (i : Nat) (j : Job) (rs : List JobResult)
    (h : i < 3) :
    extract_data_task ⟨i, 3, "tid"⟩ unsupportedEnv 1 ⟨some j, rs⟩ =
      (⟨some { j with status := .failed, startedAt := true, celeryTaskId := some "tid",
                      errorMessage := some "Unsupported file type: image/png",
                      retryCount := j.retryCount + 1 }, rs⟩,
        .retryScheduled (2 ^ i * 60)) := by
  simp [extract_data_task, routeExtract, unsupportedEnv, PyExc.msg, h]

/-- Claim C7 witness: the first failing delivery of a fresh job on a PNG
document schedules a 60-second redelivery and bumps `retry_count` to 1. -/
theorem c7_unsupported_mime_consumes_retry_witness :
    extract_data_task ⟨0, 3, "tid"⟩ unsupportedEnv 1
        ⟨some (newProcessingJob 1 "extract_data" []), []⟩ =
      (⟨some { newProcessingJob 1 "extract_data" [] with
                status := .failed, startedAt := true, celeryTaskId := some "tid",
                errorMessage := some "Unsupported file type: image/png",
                retryCount := (newProcessingJob 1 "extract_data" []).retryCount + 1 }, []⟩,
        .retryScheduled (2 ^ 0 * 60)) :=
  c7_unsupported_mime_consumes_retry 0 (newProcessingJob 1 "extract_data" []) [] (by decide)

/-- Claim C8 counterexample: on a malformed input the CSV extractor raises the
builtin generic `Exception`, not a typed `ExtractionError`, and dispatching
on an unregistered MIME type raises the builtin `ValueError`, not a typed
`UnsupportedTypeError`. -/
theorem c8_counterexample :
    extract_from_csv (.error "bad input") =
      .error (.excGeneric "CSV extraction failed: bad input") ∧
    raisesTypedExtractionError (extract_from_csv (.error "bad input")) = false ∧
    routeExtract { download := .ok (), mime := "application/msword",
                   pdfOutcome := .ok [], csvOutcome := .ok [], excelOutcome := .ok [] } =
      .error (.valueErr "Unsupported file type: application/msword") ∧
    raisesTypedUnsupportedTypeError
      (routeExtract { download := .ok (), mime := "application/msword",
                      pdfOutcome := .ok [], csvOutcome := .ok [],
                      excelOutcome := .ok [] }) = false := by
  refine ⟨rfl, rfl, ?_, ?_⟩ <;> rfl

/-- Claim C8 as amended: on malformed input each extractor raises the builtin
generic `Exception` whose message is a human-readable cause prefixed with
the format name ("CSV extraction failed: ...", "PDF extraction failed:
..."), and dispatching on a MIME type with no registered extractor raises
the builtin `ValueError("Unsupported file type: ...")`; no typed
`ExtractionError` or `UnsupportedTypeError` is defined or raised. -/
theorem c8_amended (cause : String) (env : TaskEnv)
    (h1 : (env.mime == "application/pdf") = false)
    (h2 : (env.mime == "text/csv" || env.mime == "text/plain") = false)
    (h3 : (env.mime == "application/vnd.openxmlformats-officedocument.spreadsheetml.sheet"
        || env.mime == "application/vnd.ms-excel") = false) :
    extract_from_csv (.error cause) =
      .error (.excGeneric ("CSV extraction failed: " ++ cause)) ∧
    extract_from_pdf (.error cause) =
      .error (.excGeneric ("PDF extraction failed: " ++ cause)) ∧
    routeExtract env = .error (.valueErr ("Unsupported file type: " ++ env.mime)) := by
  refine ⟨rfl, rfl, ?_⟩
  simp [routeExtract, h1, h2, h3]

/-- Claim C8 amended witness: the amended statement on a concrete cause and a
concrete unregistered MIME type. -/
theorem c8_amended_witness :
    extract_from_csv (.error "bad input") =
      .error (.excGeneric ("CSV extraction failed: " ++ "bad input")) ∧
    extract_from_pdf (.error "bad input") =
      .error (.excGeneric ("PDF extraction failed: " ++ "bad input")) ∧
    routeExtract { download := .ok (), mime := "image/png",
                   pdfOutcome := .ok [], csvOutcome := .ok [], excelOutcome := .ok [] } =
      .error (.valueErr ("Unsupported file type: " ++ "image/png")) :=
  c8_amended "bad input"
    { download := .ok (), mime := "image/png",
      pdfOutcome := .ok [], csvOutcome := .ok [], excelOutcome := .ok [] }
    (by decide) (by decide) (by decide)

/-- Claim C9: a job submission whose `job_type` is outside the configured set
never creates a job row — the jobs table is returned unchanged on every
path — and when the referenced document exists the request is answered with
the 400 validation error. -/
theorem c9_invalid_job_type_rejected (documents : List Nat) (jobs : List Job)
    (d : Nat) (jt : String) (opts : List (String × String)) (enq : EnqueueOutcome)
    (hv : VALID_JOB_TYPES.contains jt = false) :
    (create_job documents jobs (some ⟨some d, some jt, opts⟩) enq).1 = jobs ∧
    (documents.contains d = true →
      create_job documents jobs (some ⟨some d, some jt, opts⟩) enq = (jobs, 400)) := by
  have hv' : jt ∉ VALID_JOB_TYPES := by simpa using hv
  constructor
  · by_cases hd : d ∈ documents
    · simp [create_job, hd, validate_job_type, hv']
    · simp [create_job, hd]
  · intro hd
    have hd' : d ∈ documents := by simpa using hd
    simp [create_job, hd', validate_job_type, hv']

/-- Claim C9 witness: submitting the unknown type "transmogrify" against an
existing document creates no row and is answered 400. -/
theorem c9_invalid_job_type_rejected_witness :
    (create_job [5] [] (some ⟨some 5, some "transmogrify", []⟩) (.ok "tid")).1 = [] ∧
    ([5].contains 5 = true →
      create_job [5] [] (some ⟨some 5, some "transmogrify", []⟩) (.ok "tid") = ([], 400)) :=
  c9_invalid_job_type_rejected [5] [] 5 "transmogrify" [] (.ok "tid") (by decide)

/-- Claim C10: when the job row is committed but enqueueing the Celery task
raises, job creation still answers 201 with the committed row appended in
status queued and no Celery task id recorded — the enqueue failure is
swallowed. -/
theorem c10_enqueue_failure_swallowed (documents : List Nat) (jobs : List Job)
    (d : Nat) (opts : List (String × String)) (msg : String)
    (hd : documents.contains d = true) :
    create_job documents jobs (some ⟨some d, some "extract_data", opts⟩) (.fail msg) =
      (jobs ++ [newProcessingJob d "extract_data" opts], 201) ∧
    (newProcessingJob d "extract_data" opts).status = .queued ∧
    (newProcessingJob d "extract_data" opts).celeryTaskId = none := by
  have hd' : d ∈ documents := by simpa using hd
  refine ⟨?_, rfl, rfl⟩
  simp [create_job, hd', validate_job_type, validate_job_options, VALID_JOB_TYPES]

/-- Claim C10 witness: a concrete creation whose enqueue raises. -/
theorem c10_enqueue_failure_swallowed_witness :
    create_job [5] [] (some ⟨some 5, some "extract_data", []⟩) (.fail "broker down") =
      ([] ++ [newProcessingJob 5 "extract_data" []], 201) ∧
    (newProcessingJob 5 "extract_data" []).status = .queued ∧
    (newProcessingJob 5 "extract_data" []).celeryTaskId = none :=
  c10_enqueue_failure_swallowed [5] [] 5 [] "broker down" (by decide)

end DocProcessor
